import Mathlib

/-!
Verification development for the Language Crash Test repository.

The repository drives a third-party chat application through an accessibility
backend (pywinauto).  The engine under verification consists of:

* the readiness validators (`enhanced_element_validation` in
  `src/language_crash_test/automation.py` and in `src/copilot_ui_stress_test.py`),
* the resilient locator (`try_element_candidates` and
  `find_element_with_dynamic_fallback` in both files),
* the tree scanners (`inspect_ui_elements` in `src/language_crash_test/debug.py`
  and the `find_likely_*_controls` classifiers in `src/copilot_ui_debug.py`),
* the session orchestrator (`run_stress_test_logic` in
  `src/language_crash_test/automation.py`).

The accessibility backend itself is external; it is modelled as explicit data:
a node is a record of the boolean / geometric observations the code reads from
it, and a window is a lookup function from search criteria to an optional node
(`none` models `ElementNotFoundError` being raised).  All Python functions are
translated statement by statement into total Lean functions; exceptions become
`Option` results, and the locator functions additionally return the list of
backend queries they issued, so that ordering properties ("never invokes
dynamic discovery", "combined lookup first") can be stated about the code.
-/

namespace LanguageCrashTest

/-- Observations a pywinauto element exposes to the engine.  `node_exists`,
`is_visible`, `is_enabled` are the results of the corresponding probe calls;
`set_focus_ok` is whether `element.set_focus()` succeeds (the probe used by
`automation.py`); `get_value_ok` is whether `element.get_value()` succeeds
(the probe used by `copilot_ui_stress_test.py`); `rect` is `some (w, h)` when
`element.rectangle()` returns a rectangle of that width and height and `none`
when accessing the rectangle raises. -/
structure UINode where
  node_exists : Bool
  is_visible : Bool
  is_enabled : Bool
  set_focus_ok : Bool
  get_value_ok : Bool
  rect : Option (Int × Int)
deriving DecidableEq, Repr

/-- `enhanced_element_validation` from `src/language_crash_test/automation.py`
(lines 101-147), translated clause by clause.  `element_type` is the string the
callers pass ("text_input", "send_button" or "new_conversation"); only the
first two have dedicated branches, every other value falls through to the
generic success at line 144. -/
def enhanced_element_validation (element : UINode) (element_type pattern : String) :
    Bool × String :=
  if !element.node_exists then (false, "Element does not exist")
  else if !element.is_visible then (false, "Element is not visible")
  else if !element.is_enabled then (false, "Element is not enabled")
  else if element_type = "text_input" then
    if element.set_focus_ok then (true, "Valid text input found with pattern: " ++ pattern)
    else (false, "Cannot focus on text input element")
  else if element_type = "send_button" then
    match element.rect with
    | some (w, h) =>
      if 0 < w ∧ 0 < h then (true, "Valid button found with pattern: " ++ pattern)
      else (false, "Button has zero dimensions")
    | none => (false, "Cannot access button properties")
  else (true, "Element validated with pattern: " ++ pattern)

/-- `enhanced_element_validation` from `src/copilot_ui_stress_test.py`
(lines 448-486).  This legacy revision differs from the packaged one in both
role-specific branches: the text-input read probe (`get_value`) is best-effort
(a failing probe still validates, line 470), and a failing rectangle access on
a button also still validates (line 481).  The Norwegian status strings are
kept except for the quote characters around the identifier. -/
def enhanced_element_validation_script (element : UINode) (element_type identifier : String) :
    Bool × String :=
  if !element.node_exists then
    (false, element_type ++ " med identifier " ++ identifier ++ " eksisterer ikke")
  else if !element.is_visible then
    (false, element_type ++ " med identifier " ++ identifier ++ " er ikke synlig")
  else if !element.is_enabled then
    (false, element_type ++ " med identifier " ++ identifier ++ " er ikke aktivert")
  else if element_type = "text_input" then
    if element.get_value_ok then
      (true, "Tekstfelt " ++ identifier ++ " validert og klar for input")
    else (true, "Element " ++ identifier ++ " tilgjengelig (type validering feilet)")
  else if element_type = "button" then
    match element.rect with
    | some (w, h) =>
      if 0 < w ∧ 0 < h then (true, "Knapp " ++ identifier ++ " validert og klikkbar")
      else (false, "Knapp " ++ identifier ++ " har ugyldig dimensjoner")
    | none => (true, "Knapp " ++ identifier ++ " tilgjengelig (dimensjon validering feilet)")
  else (true, "Element " ++ identifier ++ " grunnleggende validert")

/-- Search criteria for one `window.child_window(...)` call: the optional
`auto_id=`, `title=` and `control_type=` keyword arguments. -/
structure Criteria where
  auto_id : Option String
  title : Option String
  control_type : Option String
deriving DecidableEq, Repr

/-- Number of keyword arguments present in a `child_window` call. -/
def Criteria.count (q : Criteria) : Nat :=
  (if q.auto_id.isSome then 1 else 0) + (if q.title.isSome then 1 else 0) +
    (if q.control_type.isSome then 1 else 0)

/-- A `child_window(auto_id=s)` call. -/
def autoQueryOf (s : String) : Criteria := ⟨some s, none, none⟩

/-- A `child_window(title=s)` call. -/
def titleQueryOf (s : String) : Criteria := ⟨none, some s, none⟩

/-- A `child_window(control_type=s)` call. -/
def controlTypeQueryOf (s : String) : Criteria := ⟨none, none, some s⟩

/-- One entry of a candidate list as consumed by `try_element_candidates`:
the `auto_id` / `title` / `control_type` fields read with `.get(..., '')`. -/
structure CandidateInfo where
  auto_id : String
  title : String
  control_type : String
deriving DecidableEq, Repr

/-- The window as seen through the accessibility backend: `child_window q`
is `some e` when the lookup resolves to element `e` and `none` when pywinauto
raises `ElementNotFoundError`. -/
structure Window where
  child_window : Criteria → Option UINode

/-- Third stage of one candidate in `try_element_candidates`
(`src/language_crash_test/automation.py` lines 189-196): the `control_type`
lookup, reached only while the local `element` variable is still `None`.
`tr` is the query trace accumulated so far. -/
def try_candidate_ct (w : Window) (element_type : String) (cand : CandidateInfo)
    (tr : List Criteria) : Option UINode × List Criteria :=
  if cand.control_type ≠ "" then
    let q := controlTypeQueryOf cand.control_type
    match w.child_window q with
    | some e =>
      if (enhanced_element_validation e element_type cand.control_type).fst then
        (some e, tr ++ [q])
      else (none, tr ++ [q])
    | none => (none, tr ++ [q])
  else (none, tr)

/-- Second stage of one candidate in `try_element_candidates`
(`src/language_crash_test/automation.py` lines 180-187): the `title` lookup.
When the lookup resolves but validation fails, `element` is no longer `None`,
so the `control_type` stage is skipped and the candidate is given up. -/
def try_candidate_title (w : Window) (element_type : String) (cand : CandidateInfo)
    (tr : List Criteria) : Option UINode × List Criteria :=
  if cand.title ≠ "" then
    let q := titleQueryOf cand.title
    match w.child_window q with
    | some e =>
      if (enhanced_element_validation e element_type cand.title).fst then
        (some e, tr ++ [q])
      else (none, tr ++ [q])
    | none => try_candidate_ct w element_type cand (tr ++ [q])
  else try_candidate_ct w element_type cand tr

/-- One candidate of `try_element_candidates` from
`src/language_crash_test/automation.py` (lines 162-199).  The stages are
`auto_id`, then `title`, then `control_type`; each later stage runs only while
the `element` variable is still `None`, i.e. only when every earlier non-empty
lookup raised `ElementNotFoundError`.  The second component is the list of
`child_window` calls issued for this candidate. -/
def try_candidate (w : Window) (element_type : String) (cand : CandidateInfo) :
    Option UINode × List Criteria :=
  if cand.auto_id ≠ "" then
    let q := autoQueryOf cand.auto_id
    match w.child_window q with
    | some e =>
      if (enhanced_element_validation e element_type cand.auto_id).fst then
        (some e, [q])
      else (none, [q])
    | none => try_candidate_title w element_type cand [q]
  else try_candidate_title w element_type cand []

/-- `try_element_candidates` from `src/language_crash_test/automation.py`
(lines 150-201): walk the candidate list in order, return the first element
that resolves and validates, together with its candidate record; `(none, _)`
in the first component models the `(None, None)` return.  The second
component is the concatenated query trace. -/
def try_element_candidates (w : Window) (candidates : List CandidateInfo)
    (element_type : String) : Option (UINode × CandidateInfo) × List Criteria :=
  match candidates with
  | [] => (none, [])
  | c :: rest =>
    match try_candidate w element_type c with
    | (some e, tr) => (some (e, c), tr)
    | (none, tr) =>
      let res := try_element_candidates w rest element_type
      (res.fst, tr ++ res.snd)

/-- The `search_criteria` dictionary built by the legacy
`try_element_candidates` (`src/copilot_ui_stress_test.py` lines 207-220):
every non-empty attribute of the candidate, combined into one lookup. -/
def combined_criteria (c : CandidateInfo) : Criteria :=
  ⟨if c.auto_id ≠ "" then some c.auto_id else none,
   if c.title ≠ "" then some c.title else none,
   if c.control_type ≠ "" then some c.control_type else none⟩

/-- The single-criterion fallback lookups of the legacy script, in the
insertion order of the `search_criteria` dictionary: `auto_id`, then `title`,
then `control_type` (only the non-empty ones). -/
def single_criteria (c : CandidateInfo) : List Criteria :=
  (if c.auto_id ≠ "" then [autoQueryOf c.auto_id] else []) ++
    (if c.title ≠ "" then [titleQueryOf c.title] else []) ++
    (if c.control_type ≠ "" then [controlTypeQueryOf c.control_type] else [])

/-- Rendering of one criterion as in the script's log strings
(quote characters omitted). -/
def criteria_parts (q : Criteria) : List String :=
  (match q.auto_id with | some a => ["auto_id=" ++ a] | none => []) ++
    (match q.title with | some t => ["title=" ++ t] | none => []) ++
    (match q.control_type with | some ct => ["control_type=" ++ ct] | none => [])

/-- The `" + ".join(criteria_description)` string of the legacy script. -/
def criteria_descr (q : Criteria) : String :=
  String.intercalate " + " (criteria_parts q)

/-- Single-criterion fallback loop of the legacy `try_element_candidates`
(`src/copilot_ui_stress_test.py` lines 246-263): try each criterion in order,
return the first element that resolves and validates. -/
def script_try_singles (w : Window) (element_type : String) (qs : List Criteria) :
    Option UINode × List Criteria :=
  match qs with
  | [] => (none, [])
  | q :: rest =>
    match w.child_window q with
    | some e =>
      if (enhanced_element_validation_script e element_type (criteria_descr q)).fst then
        (some e, [q])
      else
        ((script_try_singles w element_type rest).fst,
          q :: (script_try_singles w element_type rest).snd)
    | none =>
      ((script_try_singles w element_type rest).fst,
        q :: (script_try_singles w element_type rest).snd)

/-- One candidate of the legacy `try_element_candidates`
(`src/copilot_ui_stress_test.py` lines 196-265): skip the candidate when it
has no criteria; when it has at least two, try one combined lookup with all
of them first; then fall back to the single-criterion loop. -/
def script_try_candidate (w : Window) (element_type : String) (c : CandidateInfo) :
    Option UINode × List Criteria :=
  if (single_criteria c).length = 0 then (none, [])
  else if 1 < (single_criteria c).length then
    match w.child_window (combined_criteria c) with
    | some e =>
      if (enhanced_element_validation_script e element_type
          (criteria_descr (combined_criteria c))).fst then
        (some e, [combined_criteria c])
      else
        ((script_try_singles w element_type (single_criteria c)).fst,
          combined_criteria c :: (script_try_singles w element_type (single_criteria c)).snd)
    | none =>
      ((script_try_singles w element_type (single_criteria c)).fst,
        combined_criteria c :: (script_try_singles w element_type (single_criteria c)).snd)
  else script_try_singles w element_type (single_criteria c)

/-- The legacy `try_element_candidates` over a whole candidate list
(`src/copilot_ui_stress_test.py` lines 179-272). -/
def script_try_element_candidates (w : Window) (candidates : List CandidateInfo)
    (element_type : String) : Option (UINode × CandidateInfo) × List Criteria :=
  match candidates with
  | [] => (none, [])
  | c :: rest =>
    match script_try_candidate w element_type c with
    | (some e, tr) => (some (e, c), tr)
    | (none, tr) =>
      let res := script_try_element_candidates w rest element_type
      (res.fst, tr ++ res.snd)

/-- Known-pattern phase of `find_element_with_dynamic_fallback`
(`src/language_crash_test/automation.py` lines 218-232): for each pattern,
try `auto_id`; when the `auto_id` lookup raises `ElementNotFoundError`, try
`title`; on a lookup that resolves but fails validation, move to the next
pattern (for the `auto_id` case the `title` lookup is not attempted, because
no exception was raised). -/
def find_known_pattern (w : Window) (element_type : String) (patterns : List String) :
    Option (UINode × String) :=
  match patterns with
  | [] => none
  | p :: rest =>
    match w.child_window (autoQueryOf p) with
    | some e =>
      if (enhanced_element_validation e element_type p).fst then
        some (e, "known_pattern_auto_id: " ++ p)
      else find_known_pattern w element_type rest
    | none =>
      match w.child_window (titleQueryOf p) with
      | some e =>
        if (enhanced_element_validation e element_type p).fst then
          some (e, "known_pattern_title: " ++ p)
        else find_known_pattern w element_type rest
      | none => find_known_pattern w element_type rest

/-- The parsed structured data returned by `dump_control_tree_via_script`
(the `JSON_DATA_START` block produced by the debug module): the three
role-keyed candidate lists. -/
structure DebugData where
  text_input_candidates : List CandidateInfo
  send_button_candidates : List CandidateInfo
  new_conversation_candidates : List CandidateInfo
deriving DecidableEq, Repr

/-- `debug_data.get(f'<element_type>_candidates', [])` from
`src/language_crash_test/automation.py` line 242: any element type outside
the three keys present in the data yields the empty default. -/
def candidates_for (d : DebugData) (element_type : String) : List CandidateInfo :=
  if element_type = "text_input" then d.text_input_candidates
  else if element_type = "send_button" then d.send_button_candidates
  else if element_type = "new_conversation" then d.new_conversation_candidates
  else []

/-- `find_element_with_dynamic_fallback` from
`src/language_crash_test/automation.py` (lines 204-253).  `debug_data` is the
result the dynamic-discovery helper would deliver (`none` models the helper
failing or returning no data).  The boolean records whether the dynamic
discovery (`dump_control_tree_via_script`) was invoked at all, which happens
exactly on falling through the known-pattern phase.  The function is total:
exhaustion of both phases is the value `((none, none), true)`, not an
exception. -/
def find_element_with_dynamic_fallback (w : Window) (element_type : String)
    (patterns : List String) (debug_data : Option DebugData) :
    (Option UINode × Option String) × Bool :=
  match find_known_pattern w element_type patterns with
  | some (e, m) => ((some e, some m), false)
  | none =>
    match debug_data with
    | none => ((none, none), true)
    | some d =>
      match (try_element_candidates w (candidates_for d element_type) element_type).fst with
      | some (e, ci) =>
        ((some e, some ("dynamic_discovery: " ++ ci.auto_id ++ "/" ++ ci.title)), true)
      | none => ((none, none), true)

/-- Outcome of one iteration of the send loop
(`src/language_crash_test/automation.py` lines 339-377), as observed on the
`success_count` variable: `ok` means control reached the
`success_count += 1` statement; `noInput` and `noSendControl` are the two
explicit `continue` branches for a missing text input / send button; `exn`
is any exception raised while handling the message, which the
`except Exception` clause at line 375 catches and logs before continuing. -/
inductive StepResult where
  | ok : StepResult
  | noInput : StepResult
  | noSendControl : StepResult
  | exn : String → StepResult
deriving DecidableEq, Repr

/-- The dictionary returned by `run_stress_test_logic`:
`{'success': ..., 'total': ..., 'error': ...}`, where the `error` key is
absent (`none`) on the loop-completion path. -/
structure RunResult where
  success : Nat
  total : Nat
  error : Option String
deriving DecidableEq, Repr

/-- The two configuration fields that determine the control flow of
`run_stress_test_logic`.  `Config.validate` in
`src/language_crash_test/config.py` (line 180) rejects non-positive message
counts before a run, so the count is modelled as a natural number. -/
structure Config where
  number_of_messages : Nat
  launch_if_not_found : Bool
deriving DecidableEq, Repr

/-- Behaviour of the external world during one run: whether pywinauto is
importable, whether the initial `connect` succeeds, whether the
`connect` after launching succeeds (with the exception text when it does
not), whether `validate_window` returns `True`, what happens at each message
index, and whether some exception escapes to the outer handlers at
lines 382-389 (from connect raising an unexpected type, a logging call, or
the loop header itself).  The optional new-conversation step (lines 325-336)
is not represented: every exception there is caught, it touches neither
`success_count` nor the returned dictionary. -/
structure Env where
  windows_available : Bool
  connect_ok : Bool
  launch_connect_ok : Bool
  launch_error : String
  window_valid : Bool
  step : Nat → StepResult
  outer_exn : Option String

/-- The send loop `for i in range(1, number_of_messages + 1)`
(`src/language_crash_test/automation.py` lines 339-377): every index from
`1` to `n` is attempted, and `success_count` is incremented exactly on the
iterations whose outcome is `ok`. -/
def message_loop (step : Nat → StepResult) (n : Nat) : Nat :=
  (List.range' 1 n).foldl (fun acc i => if step i = StepResult.ok then acc + 1 else acc) 0

/-- Tail of `run_stress_test_logic` after a window connection was obtained
(`src/language_crash_test/automation.py` lines 319-380): window validation
failure is fatal; otherwise the loop runs to completion and the returned
dictionary has no `error` key. -/
def run_after_connect (cfg : Config) (env : Env) : RunResult :=
  if !env.window_valid then
    ⟨0, cfg.number_of_messages, some "❌ Window validation failed after connection attempt."⟩
  else ⟨message_loop env.step cfg.number_of_messages, cfg.number_of_messages, none⟩

/-- `run_stress_test_logic` from `src/language_crash_test/automation.py`
(lines 268-389).  Every return path of the Python function is one branch:
the pywinauto-availability guard, the outer `except` handlers (which return
`success: 0` regardless of where the exception was raised), the
connect / launch / re-connect ladder, window validation, and the loop
completion path. -/
def run_stress_test_logic (cfg : Config) (env : Env) : RunResult :=
  if !env.windows_available then
    ⟨0, cfg.number_of_messages, some "❌ pywinauto not available or not on Windows"⟩
  else
    match env.outer_exn with
    | some e =>
      ⟨0, cfg.number_of_messages, some ("❌ An unexpected critical error occurred: " ++ e)⟩
    | none =>
      if env.connect_ok then run_after_connect cfg env
      else if cfg.launch_if_not_found then
        if env.launch_connect_ok then run_after_connect cfg env
        else
          ⟨0, cfg.number_of_messages,
            some ("❌ Failed to launch or connect to Copilot after launch: " ++ env.launch_error)⟩
      else
        ⟨0, cfg.number_of_messages,
          some "❌ Could not find Copilot window and auto-launch is disabled in config."⟩

/-- One row of `extract_element_info` / `extract_control_info`: the attribute
snapshot both tree scanners read for every descendant of the window. -/
structure ElementInfo where
  auto_id : String
  title : String
  control_type : String
  class_name : String
  is_visible : Bool
  is_enabled : Bool
deriving DecidableEq, Repr

/-- Python's substring operator `needle in hay` on lists of characters. -/
def containsSub (needle : List Char) : List Char → Bool
  | [] => needle.isEmpty
  | c :: rest => needle.isPrefixOf (c :: rest) || containsSub needle rest

/-- Python's substring operator `needle in hay` on strings. -/
def substrB (needle hay : String) : Bool :=
  containsSub needle.data hay.data

/-- Python's `str.lower()`: the engine's identifiers and keywords are ASCII,
where per-character lowering coincides with Python's casefolding. -/
def lowerStr (s : String) : String := ⟨s.data.map Char.toLower⟩

/-- `is_likely_text_input` from `src/language_crash_test/debug.py`
(lines 37-70).  The lowered `title` is computed by the Python function but
never used; the three used tests are translated. -/
def is_likely_text_input (e : ElementInfo) : Bool :=
  let control_type := lowerStr e.control_type
  let auto_id := lowerStr e.auto_id
  let class_name := lowerStr e.class_name
  ["edit", "text", "document", "custom"].any (fun ct => substrB ct control_type) ||
    ["input", "textbox", "compose", "message", "chat",
      "edit", "text", "type", "enter"].any (fun p => substrB p auto_id) ||
    ["edit", "textbox", "input", "compose"].any (fun p => substrB p class_name)

/-- `is_likely_send_button` from `src/language_crash_test/debug.py`
(lines 73-106). -/
def is_likely_send_button (e : ElementInfo) : Bool :=
  let control_type := lowerStr e.control_type
  if !(["button", "custom", "menuitem"].any (fun bt => substrB bt control_type)) then false
  else
    let combined_text := lowerStr (lowerStr e.auto_id ++ " " ++ lowerStr e.title)
    ["send", "submit", "post", "snakk", "mic", "microphone",
      "composer", "oldcomposer", "copilot", "arrow", "icon"].any
      (fun p => substrB p combined_text)

/-- `is_likely_new_conversation_button` from `src/language_crash_test/debug.py`
(lines 109-136). -/
def is_likely_new_conversation_button (e : ElementInfo) : Bool :=
  let control_type := lowerStr e.control_type
  if !(["button", "custom", "menuitem"].any (fun bt => substrB bt control_type)) then false
  else
    let text_to_check := lowerStr (lowerStr e.auto_id ++ " " ++ lowerStr e.title)
    ["home", "hjem", "new", "ny", "conversation", "samtale",
      "fresh", "start", "begin"].any (fun p => substrB p text_to_check)

/-- The categorised result dictionary built by `inspect_ui_elements`
(`src/language_crash_test/debug.py` lines 254-266). -/
structure InspectResult where
  text_input_candidates : List ElementInfo
  send_button_candidates : List ElementInfo
  new_conversation_candidates : List ElementInfo
  total_elements : Nat
deriving DecidableEq, Repr

/-- `inspect_ui_elements` from `src/language_crash_test/debug.py`
(lines 203-281), as a function of the descendant snapshot list: only visible
and enabled elements are considered for the three interactive candidate
lists (line 241); the scan order of `descendants` is preserved. -/
def inspect_ui_elements (descendants : List ElementInfo) : InspectResult :=
  ⟨descendants.filter (fun e => e.is_visible && e.is_enabled && is_likely_text_input e),
   descendants.filter (fun e => e.is_visible && e.is_enabled && is_likely_send_button e),
   descendants.filter (fun e => e.is_visible && e.is_enabled && is_likely_new_conversation_button e),
   descendants.length⟩

/-- Suffix of `hay` after the leftmost occurrence of `needle`, or `none` when
`needle` does not occur.  Helper for the regular-expression models below. -/
def dropAfterFirst (needle : List Char) : List Char → Option (List Char)
  | [] => if needle.isEmpty then some [] else none
  | c :: rest =>
    if needle.isPrefixOf (c :: rest) then some ((c :: rest).drop needle.length)
    else dropAfterFirst needle rest

/-- Matcher for the unanchored regular expressions of the form
`p₁.*p₂.*…*pₖ` used by `src/copilot_ui_debug.py` (all its pattern literals
are plain words separated by `.*`): the parts must occur left to right
without overlap.  Taking the leftmost occurrence of each part is complete
for such patterns. -/
def seqMatch : List (List Char) → List Char → Bool
  | [], _ => true
  | p :: ps, s =>
    match dropAfterFirst p s with
    | some rest => seqMatch ps rest
    | none => false

/-- String-level wrapper for `seqMatch`, modelling `re.search` of a
`p₁.*…*pₖ` pattern. -/
def seqSearch (parts : List String) (s : String) : Bool :=
  seqMatch (parts.map String.data) s.data

/-- The `text_input_patterns` regex table of
`find_likely_text_input_controls` (`src/copilot_ui_debug.py` lines 70-78),
each paired with its matcher.  The anchored `^text.*box$` demands the two
literals at the two ends without overlap, hence the length bound; `^input.*$`
is a prefix test; the `re.IGNORECASE` flag is immaterial because the
searched string is lowercased first and the pattern literals are lowercase. -/
def text_input_regex_table : List (String × (String → Bool)) :=
  [("input.*text.*box", fun s => seqSearch ["input", "text", "box"] s),
   ("text.*input", fun s => seqSearch ["text", "input"] s),
   ("message.*input", fun s => seqSearch ["message", "input"] s),
   ("chat.*input", fun s => seqSearch ["chat", "input"] s),
   ("compose.*input", fun s => seqSearch ["compose", "input"] s),
   ("^text.*box$", fun s => s.startsWith "text" && s.endsWith "box" && 7 ≤ s.length),
   ("^input.*$", fun s => s.startsWith "input")]

/-- The `send_button_patterns` regex table of
`find_likely_send_button_controls` (`src/copilot_ui_debug.py` lines 132-140). -/
def send_button_regex_table : List (String × (String → Bool)) :=
  [("send.*button", fun s => seqSearch ["send", "button"] s),
   ("submit.*button", fun s => seqSearch ["submit", "button"] s),
   ("compose.*button", fun s => seqSearch ["compose", "button"] s),
   ("mic.*button", fun s => seqSearch ["mic", "button"] s),
   ("chat.*send", fun s => seqSearch ["chat", "send"] s),
   ("^send$", fun s => s = "send"),
   ("^submit$", fun s => s = "submit")]

/-- The `new_conversation_patterns` regex table of
`find_likely_new_conversation_controls` (`src/copilot_ui_debug.py`
lines 198-204). -/
def new_conversation_regex_table : List (String × (String → Bool)) :=
  [("new.*conversation", fun s => seqSearch ["new", "conversation"] s),
   ("ny.*samtale", fun s => seqSearch ["ny", "samtale"] s),
   ("new.*chat", fun s => seqSearch ["new", "chat"] s),
   ("start.*new", fun s => seqSearch ["start", "new"] s),
   ("conversation.*new", fun s => seqSearch ["conversation", "new"] s)]

/-- Score contribution of the regex block shared by the three classifiers:
`+10` for the first matching pattern of the table only (the Python loop
breaks after the first hit). -/
def regex_block (table : List (String × (String → Bool))) (auto_id : String) :
    Nat × List String :=
  match table.find? (fun pr => pr.snd auto_id) with
  | some pr => (10, ["auto_id matches pattern: " ++ pr.fst])
  | none => (0, [])

/-- A scored candidate record `{'control': ..., 'score': ..., 'reasons': ...}`
as built by the `find_likely_*_controls` classifiers. -/
structure ScoredCandidate where
  control : ElementInfo
  score : Nat
  reasons : List String
deriving DecidableEq, Repr

/-- Scoring body of `find_likely_text_input_controls`
(`src/copilot_ui_debug.py` lines 86-111): regex block on the lowered
`auto_id`, exact control-type membership, title keywords, and the
known-good `inputtextbox` bonus. -/
def score_text_input (control : ElementInfo) : Nat × List String :=
  let auto_id := lowerStr control.auto_id
  let pat := regex_block text_input_regex_table auto_id
  let typ : Nat × List String :=
    if ["Edit", "Text", "Document", "Custom"].contains control.control_type then
      (5, ["control_type: " ++ control.control_type])
    else (0, [])
  let title := lowerStr control.title
  let ttl : Nat × List String :=
    if ["input", "text", "message", "chat"].any (fun k => substrB k title) then
      (3, ["title contains text input keywords"])
    else (0, [])
  let known : Nat × List String :=
    if substrB "inputtextbox" auto_id then (15, ["Known working auto_id pattern"])
    else (0, [])
  (pat.fst + typ.fst + ttl.fst + known.fst, pat.snd ++ typ.snd ++ ttl.snd ++ known.snd)

/-- Scoring body of `find_likely_send_button_controls`
(`src/copilot_ui_debug.py` lines 148-178). -/
def score_send_button (control : ElementInfo) : Nat × List String :=
  let auto_id := lowerStr control.auto_id
  let pat := regex_block send_button_regex_table auto_id
  let typ : Nat × List String :=
    if ["Button", "Custom"].contains control.control_type then
      (5, ["control_type: " ++ control.control_type])
    else (0, [])
  let title := lowerStr control.title
  let ttl : Nat × List String :=
    if ["send", "submit", "snakk", "talk", "mic", "microphone"].any
        (fun k => substrB k title) then
      (8, ["title contains send keywords: " ++ title])
    else (0, [])
  let known1 : Nat × List String :=
    if substrB "oldcomposermicbutton" auto_id then (15, ["Known working auto_id pattern"])
    else (0, [])
  let known2 : Nat × List String :=
    if substrB "snakk med copilot" title then (12, ["Known working title pattern"])
    else (0, [])
  (pat.fst + typ.fst + ttl.fst + known1.fst + known2.fst,
   pat.snd ++ typ.snd ++ ttl.snd ++ known1.snd ++ known2.snd)

/-- Scoring body of `find_likely_new_conversation_controls`
(`src/copilot_ui_debug.py` lines 210-239).  In this classifier a
non-clickable control type aborts the candidate altogether (the `continue`
at line 226), so the result is optional. -/
def score_new_conversation (control : ElementInfo) : Option (Nat × List String) :=
  let auto_id := lowerStr control.auto_id
  let pat := regex_block new_conversation_regex_table auto_id
  if ["Button", "Custom", "MenuItem"].contains control.control_type then
    let typ : Nat × List String := (5, ["control_type: " ++ control.control_type])
    let title := lowerStr control.title
    let ttl : Nat × List String :=
      if ["ny samtale", "new conversation", "new chat"].any (fun k => substrB k title) then
        (12, ["title matches conversation keywords: " ++ title])
      else (0, [])
    some (pat.fst + typ.fst + ttl.fst, pat.snd ++ typ.snd ++ ttl.snd)
  else none

/-- Candidate accumulation of `find_likely_text_input_controls` before the
sort (`src/copilot_ui_debug.py` lines 82-118): skip invisible or disabled
controls, keep positive scores, preserve scan order. -/
def find_likely_text_input_controls_raw (controls : List ElementInfo) :
    List ScoredCandidate :=
  controls.filterMap (fun control =>
    if control.is_enabled && control.is_visible then
      if 0 < (score_text_input control).fst then
        some ⟨control, (score_text_input control).fst, (score_text_input control).snd⟩
      else none
    else none)

/-- Candidate accumulation of `find_likely_send_button_controls` before the
sort (`src/copilot_ui_debug.py` lines 144-185). -/
def find_likely_send_button_controls_raw (controls : List ElementInfo) :
    List ScoredCandidate :=
  controls.filterMap (fun control =>
    if control.is_enabled && control.is_visible then
      if 0 < (score_send_button control).fst then
        some ⟨control, (score_send_button control).fst, (score_send_button control).snd⟩
      else none
    else none)

/-- Candidate accumulation of `find_likely_new_conversation_controls` before
the sort (`src/copilot_ui_debug.py` lines 206-239). -/
def find_likely_new_conversation_controls_raw (controls : List ElementInfo) :
    List ScoredCandidate :=
  controls.filterMap (fun control =>
    if control.is_enabled && control.is_visible then
      match score_new_conversation control with
      | some sc => if 0 < sc.fst then some ⟨control, sc.fst, sc.snd⟩ else none
      | none => none
    else none)

/-- `candidates.sort(key=lambda x: x['score'], reverse=True)`: Python's sort
is stable, and with `reverse=True` equal keys still keep their original
order, so it is the stable descending-by-score sort. -/
def sort_candidates (l : List ScoredCandidate) : List ScoredCandidate :=
  l.mergeSort (fun a b => decide (b.score ≤ a.score))

/-- `find_likely_text_input_controls` from `src/copilot_ui_debug.py`
(lines 62-122). -/
def find_likely_text_input_controls (controls : List ElementInfo) :
    List ScoredCandidate :=
  sort_candidates (find_likely_text_input_controls_raw controls)

/-- `find_likely_send_button_controls` from `src/copilot_ui_debug.py`
(lines 124-189). -/
def find_likely_send_button_controls (controls : List ElementInfo) :
    List ScoredCandidate :=
  sort_candidates (find_likely_send_button_controls_raw controls)

/-- `find_likely_new_conversation_controls` from `src/copilot_ui_debug.py`
(lines 191-243). -/
def find_likely_new_conversation_controls (controls : List ElementInfo) :
    List ScoredCandidate :=
  sort_candidates (find_likely_new_conversation_controls_raw controls)

/-! Helper lemmas about the send loop and the orchestrator. -/

theorem message_loop_eq_countP (step : Nat → StepResult) (n : Nat) :
    message_loop step n =
      (List.range' 1 n).countP (fun i => decide (step i = StepResult.ok)) := by
  have general : ∀ (l : List Nat) (a : Nat),
      l.foldl (fun acc i => if step i = StepResult.ok then acc + 1 else acc) a =
        a + l.countP (fun i => decide (step i = StepResult.ok)) := by
    intro l
    induction l with
    | nil => intro a; simp
    | cons i l ih =>
      intro a
      simp only [List.foldl_cons, List.countP_cons]
      by_cases h : step i = StepResult.ok
      · rw [if_pos h, ih (a + 1)]
        simp [h]
        omega
      · rw [if_neg h, ih a]
        simp [h]
  simpa [message_loop] using general (List.range' 1 n) 0

theorem message_loop_le (step : Nat → StepResult) (n : Nat) : message_loop step n ≤ n := by
  rw [message_loop_eq_countP]
  have h := List.countP_le_length (l := List.range' 1 n)
    (p := fun i => decide (step i = StepResult.ok))
  simpa using h

theorem countP_unique_fail (p : Nat → Bool) :
    ∀ (l : List Nat), l.Nodup → ∀ j, j ∈ l → p j = false → (∀ i, i ≠ j → p i = true) →
      l.countP p = l.length - 1 := by
  intro l
  induction l with
  | nil => intro _ j hj; cases hj
  | cons a l ih =>
    intro hnd j hj hpj hpi
    rcases List.nodup_cons.mp hnd with ⟨hal, hndl⟩
    rcases List.mem_cons.mp hj with rfl | hjl
    · rw [List.countP_cons, hpj]
      have hall : l.countP p = l.length := by
        rw [List.countP_eq_length]
        intro x hx
        exact hpi x (fun h => hal (h ▸ hx))
      rw [hall]
      simp
    · have haj : a ≠ j := fun h => hal (h ▸ hjl)
      have hlen : 1 ≤ l.length := List.length_pos.mpr (List.ne_nil_of_mem hjl)
      rw [List.countP_cons, hpi a haj, ih hndl j hjl hpj hpi]
      simp
      omega

theorem append_ne_empty (s t : String) (h : 0 < s.length) : s ++ t ≠ "" := by
  intro hc
  have h2 := congrArg String.length hc
  rw [String.length_append] at h2
  simp at h2
  omega

/-- Every return path of `run_stress_test_logic` is either a fatal result
`{'success': 0, 'total': n, 'error': msg}` with a non-empty message, or the
loop-completion result with no error key. -/
theorem run_stress_test_cases (cfg : Config) (env : Env) :
    (∃ msg, run_stress_test_logic cfg env = ⟨0, cfg.number_of_messages, some msg⟩ ∧ msg ≠ "") ∨
      run_stress_test_logic cfg env =
        ⟨message_loop env.step cfg.number_of_messages, cfg.number_of_messages, none⟩ := by
  unfold run_stress_test_logic run_after_connect
  cases hwa : env.windows_available
  · exact Or.inl ⟨"❌ pywinauto not available or not on Windows", by simp, by decide⟩
  · cases hoe : env.outer_exn with
    | some e =>
      exact Or.inl ⟨"❌ An unexpected critical error occurred: " ++ e, by simp,
        append_ne_empty "❌ An unexpected critical error occurred: " e (by decide)⟩
    | none =>
      cases hwv : env.window_valid
      · cases hco : env.connect_ok
        · cases hln : cfg.launch_if_not_found
          · exact Or.inl ⟨"❌ Could not find Copilot window and auto-launch is disabled in config.",
              by simp, by decide⟩
          · cases hlc : env.launch_connect_ok
            · exact Or.inl ⟨"❌ Failed to launch or connect to Copilot after launch: " ++
                  env.launch_error, by simp,
                append_ne_empty "❌ Failed to launch or connect to Copilot after launch: "
                  env.launch_error (by decide)⟩
            · exact Or.inl ⟨"❌ Window validation failed after connection attempt.",
                by simp [hwv], by decide⟩
        · exact Or.inl ⟨"❌ Window validation failed after connection attempt.",
            by simp [hwv], by decide⟩
      · cases hco : env.connect_ok
        · cases hln : cfg.launch_if_not_found
          · exact Or.inl ⟨"❌ Could not find Copilot window and auto-launch is disabled in config.",
              by simp, by decide⟩
          · cases hlc : env.launch_connect_ok
            · exact Or.inl ⟨"❌ Failed to launch or connect to Copilot after launch: " ++
                  env.launch_error, by simp,
                append_ne_empty "❌ Failed to launch or connect to Copilot after launch: "
                  env.launch_error (by decide)⟩
            · exact Or.inr (by simp [hwv])
        · exact Or.inr (by simp [hwv])

/-- When pywinauto is importable, no exception escapes to the outer handlers,
the window is obtained (directly or after a launch) and validates, the run
reaches the send loop and returns its tally with no error key. -/
theorem run_happy_path (cfg : Config) (env : Env)
    (hwa : env.windows_available = true) (hoe : env.outer_exn = none)
    (hconn : env.connect_ok = true ∨
      (cfg.launch_if_not_found = true ∧ env.launch_connect_ok = true))
    (hwv : env.window_valid = true) :
    run_stress_test_logic cfg env =
      ⟨message_loop env.step cfg.number_of_messages, cfg.number_of_messages, none⟩ := by
  unfold run_stress_test_logic run_after_connect
  rcases hconn with hc | ⟨hl, hlc⟩
  · simp [hwa, hoe, hc, hwv]
  · cases hc2 : env.connect_ok
    · simp [hwa, hoe, hc2, hl, hlc, hwv]
    · simp [hwa, hoe, hc2, hwv]

/-! Claim theorems C1-C3 about the session orchestrator. -/

/-- C1: in every run that reaches the send loop, a failure at a single
message `j` (missing input control, missing send control, or any exception
raised while handling that message) is caught and counted as a failed
message, all other messages are still attempted and counted, and the final
result has `total = numberOfMessages` with no fatal error: the run returns
`{'success': N - 1, 'total': N, 'error': absent}`. -/
theorem C1_single_fault_tolerated (cfg : Config) (env : Env) (j : Nat)
    (hwa : env.windows_available = true) (hoe : env.outer_exn = none)
    (hco : env.connect_ok = true) (hwv : env.window_valid = true)
    (hj1 : 1 ≤ j) (hj2 : j ≤ cfg.number_of_messages)
    (hfail : env.step j ≠ StepResult.ok)
    (hok : ∀ i, i ≠ j → env.step i = StepResult.ok) :
    run_stress_test_logic cfg env =
      ⟨cfg.number_of_messages - 1, cfg.number_of_messages, none⟩ := by
  rw [run_happy_path cfg env hwa hoe (Or.inl hco) hwv]
  have hcount : message_loop env.step cfg.number_of_messages =
      cfg.number_of_messages - 1 := by
    rw [message_loop_eq_countP]
    have hmem : j ∈ List.range' 1 cfg.number_of_messages := by
      rw [List.mem_range'_1]
      omega
    have h := countP_unique_fail (fun i => decide (env.step i = StepResult.ok))
      (List.range' 1 cfg.number_of_messages) (List.nodup_range' 1 _) j hmem
      (by simp [hfail]) (fun i hi => by simp [hok i hi])
    simpa using h
  rw [hcount]

/-- Witness for C1: the spec scenario of a fault injected on message 3 of 10
yields `total = 10`, `succeeded = 9` and no fatal error. -/
def stepC1 : Nat → StepResult := fun i => if i = 3 then StepResult.noInput else StepResult.ok

/-- Environment of a run whose pre-loop phases all succeed. -/
def envHappy (step : Nat → StepResult) : Env := ⟨true, true, true, "", true, step, none⟩

theorem C1_single_fault_tolerated_witness :
    (1 ≤ 3 ∧ 3 ≤ 10 ∧ (envHappy stepC1).step 3 ≠ StepResult.ok) ∧
      run_stress_test_logic ⟨10, true⟩ (envHappy stepC1) = ⟨9, 10, none⟩ := by
  refine ⟨⟨by decide, by decide, by decide⟩, ?_⟩
  exact C1_single_fault_tolerated ⟨10, true⟩ (envHappy stepC1) 3 rfl rfl rfl rfl
    (by decide) (by decide) (by decide) (fun i hi => by simp [envHappy, stepC1, hi])

/-- C2: every result returned by `run_stress_test_logic`, on every path
(fatal pre-loop failure, unexpected exception, or loop completion),
satisfies `0 ≤ succeeded ≤ total` (`succeeded` is a natural number, so the
lower bound is implicit), and whenever the result carries an error, that
error string is non-empty and `succeeded = 0`. -/
theorem C2_result_invariants (cfg : Config) (env : Env) :
    (run_stress_test_logic cfg env).success ≤ (run_stress_test_logic cfg env).total ∧
      ∀ e, (run_stress_test_logic cfg env).error = some e →
        e ≠ "" ∧ (run_stress_test_logic cfg env).success = 0 := by
  rcases run_stress_test_cases cfg env with ⟨msg, hrun, hmsg⟩ | hrun <;> rw [hrun]
  · refine ⟨Nat.zero_le _, fun e he => ?_⟩
    simp only at he
    injection he with he
    exact ⟨he ▸ hmsg, rfl⟩
  · exact ⟨message_loop_le _ _, fun e he => by cases he⟩

/-- Environment where pywinauto is unavailable, exercising an error path. -/
def envNoWindows : Env := ⟨false, true, true, "", true, fun _ => StepResult.ok, none⟩

theorem C2_result_invariants_witness :
    (run_stress_test_logic ⟨5, false⟩ envNoWindows).success ≤
        (run_stress_test_logic ⟨5, false⟩ envNoWindows).total ∧
      ("❌ pywinauto not available or not on Windows" ≠ "" ∧
        (run_stress_test_logic ⟨5, false⟩ envNoWindows).success = 0) :=
  ⟨(C2_result_invariants ⟨5, false⟩ envNoWindows).1,
    (C2_result_invariants ⟨5, false⟩ envNoWindows).2 _ rfl⟩

/-- C3: whenever the send loop runs to completion (every message from 1 to
`numberOfMessages` attempted), the returned result is
`{succeeded, total = numberOfMessages, error = absent}`, even when
`succeeded < total`; in particular, when every message fails to send the
result is `{'success': 0, 'total': numberOfMessages}` with no error key
rather than a fatal error. -/
theorem C3_completion_not_error (cfg : Config) (env : Env)
    (hwa : env.windows_available = true) (hoe : env.outer_exn = none)
    (hconn : env.connect_ok = true ∨
      (cfg.launch_if_not_found = true ∧ env.launch_connect_ok = true))
    (hwv : env.window_valid = true) :
    run_stress_test_logic cfg env =
        ⟨message_loop env.step cfg.number_of_messages, cfg.number_of_messages, none⟩ ∧
      ((∀ i, env.step i ≠ StepResult.ok) →
        run_stress_test_logic cfg env = ⟨0, cfg.number_of_messages, none⟩) := by
  have hrun := run_happy_path cfg env hwa hoe hconn hwv
  refine ⟨hrun, fun hard => ?_⟩
  rw [hrun]
  have hz : message_loop env.step cfg.number_of_messages = 0 := by
    rw [message_loop_eq_countP]
    rw [List.countP_eq_zero]
    intro a _
    simp [hard a]
  rw [hz]

/-- Environment of the spec scenario where the send control is never found:
all three messages are attempted and all fail. -/
def envAllFail : Env := ⟨true, true, true, "", true, fun _ => StepResult.noSendControl, none⟩

theorem C3_completion_not_error_witness :
    envAllFail.window_valid = true ∧
      run_stress_test_logic ⟨3, true⟩ envAllFail = ⟨0, 3, none⟩ := by
  refine ⟨rfl, ?_⟩
  exact (C3_completion_not_error ⟨3, true⟩ envAllFail rfl rfl (Or.inl rfl) rfl).2
    (fun i => by simp [envAllFail])

/-! Claim theorems C4-C5 about the readiness validator. -/

/-- A text input that exists, is visible and is enabled, whose focus probe
fails (and whose other probes would succeed). -/
def nodeFocusFail : UINode := ⟨true, true, true, false, true, some (10, 10)⟩

/-- C4 counterexample: the claim states that for a text_input node that
exists, is visible and is enabled, a failure of the focus/read probe does
not by itself cause validation to report the node as not ready.  In
`enhanced_element_validation` of `src/language_crash_test/automation.py`
(lines 124-130) the failure of the `set_focus` probe is precisely what makes
validation return `False`: at this concrete node, whose only deficiency is
the failing probe, validation reports not ready. -/
theorem C4_focus_probe_counterexample :
    nodeFocusFail.node_exists = true ∧ nodeFocusFail.is_visible = true ∧
      nodeFocusFail.is_enabled = true ∧
      enhanced_element_validation nodeFocusFail "text_input" "InputTextBox" =
        (false, "Cannot focus on text input element") :=
  ⟨rfl, rfl, rfl, rfl⟩

/-- C4 amended: for every text_input node that exists, is visible and is
enabled, the packaged validator (`automation.py`) reports the node ready
exactly when the focus probe succeeds — a probe failure by itself makes it
report not ready; only the legacy script's validator
(`copilot_ui_stress_test.py`, `get_value` read probe) treats the probe as
best-effort and still validates on probe failure. -/
theorem C4_amended_focus_probe_required (e : UINode) (pattern : String)
    (h1 : e.node_exists = true) (h2 : e.is_visible = true) (h3 : e.is_enabled = true) :
    (enhanced_element_validation e "text_input" pattern).fst = e.set_focus_ok ∧
      (enhanced_element_validation_script e "text_input" pattern).fst = true := by
  unfold enhanced_element_validation enhanced_element_validation_script
  rw [h1, h2, h3]
  cases hf : e.set_focus_ok <;> cases hg : e.get_value_ok <;> simp

theorem C4_amended_focus_probe_required_witness :
    (nodeFocusFail.node_exists = true ∧ nodeFocusFail.is_visible = true ∧
        nodeFocusFail.is_enabled = true) ∧
      ((enhanced_element_validation nodeFocusFail "text_input" "InputTextBox").fst =
          nodeFocusFail.set_focus_ok ∧
        (enhanced_element_validation_script nodeFocusFail "text_input" "InputTextBox").fst =
          true) :=
  ⟨⟨rfl, rfl, rfl⟩, C4_amended_focus_probe_required nodeFocusFail "InputTextBox" rfl rfl rfl⟩

/-- A control that exists, is visible and is enabled but has a zero-area
bounding rectangle. -/
def zeroAreaNode : UINode := ⟨true, true, true, true, true, some (0, 0)⟩

/-- C5 counterexample: the claim states that every send_control node and
every new_session node whose rectangle has zero width or zero height is
reported not ready.  In `enhanced_element_validation` of
`src/language_crash_test/automation.py` the rectangle check exists only for
element type "send_button"; a new-session node (element type
"new_conversation", as passed by `run_stress_test_logic` line 327) falls
through to the generic success at line 144: this zero-area node is reported
ready. -/
theorem C5_new_session_rect_counterexample :
    zeroAreaNode.rect = some (0, 0) ∧
      (enhanced_element_validation zeroAreaNode "new_conversation" "Hjem").fst = true :=
  ⟨rfl, rfl⟩

/-- C5 amended: for every node that exists, is visible and is enabled, the
send_control validation requires a rectangle with strictly positive width
and height (and fails when the rectangle is inaccessible), while the
new_session validation performs no rectangle check at all and reports the
node ready. -/
theorem C5_amended_rect_check (e : UINode) (pattern : String) (w h : Int)
    (h1 : e.node_exists = true) (h2 : e.is_visible = true) (h3 : e.is_enabled = true) :
    (e.rect = some (w, h) →
        ((enhanced_element_validation e "send_button" pattern).fst = true ↔ 0 < w ∧ 0 < h)) ∧
      (e.rect = none → (enhanced_element_validation e "send_button" pattern).fst = false) ∧
      (enhanced_element_validation e "new_conversation" pattern).fst = true := by
  unfold enhanced_element_validation
  rw [h1, h2, h3]
  refine ⟨fun hr => ?_, fun hr => ?_, by simp⟩
  · rw [hr]
    by_cases hwh : 0 < w ∧ 0 < h <;> simp [hwh]
  · rw [hr]
    simp

theorem C5_amended_rect_check_witness :
    (zeroAreaNode.node_exists = true ∧ zeroAreaNode.rect = some ((0 : Int), (0 : Int))) ∧
      (((enhanced_element_validation zeroAreaNode "send_button" "SendButton").fst = true ↔
          (0 : Int) < 0 ∧ (0 : Int) < 0) ∧
        (enhanced_element_validation zeroAreaNode "new_conversation" "Hjem").fst = true) :=
  ⟨⟨rfl, rfl⟩,
    (C5_amended_rect_check zeroAreaNode "SendButton" 0 0 rfl rfl rfl).1 rfl,
    (C5_amended_rect_check zeroAreaNode "Hjem" 0 0 rfl rfl rfl).2.2⟩

/-! Claim theorems C7-C8 about the resilient locator's phase structure. -/

/-- Every successful result of the known-pattern phase carries a method
string naming one of the given patterns with a known-pattern prefix. -/
theorem find_known_pattern_method (w : Window) (element_type : String) :
    ∀ (patterns : List String) (e : UINode) (m : String),
      find_known_pattern w element_type patterns = some (e, m) →
      ∃ p, p ∈ patterns ∧
        (m = "known_pattern_auto_id: " ++ p ∨ m = "known_pattern_title: " ++ p) := by
  intro patterns
  induction patterns with
  | nil => intro e m h; simp [find_known_pattern] at h
  | cons p rest ih =>
    intro e m h
    unfold find_known_pattern at h
    cases hq : w.child_window (autoQueryOf p) with
    | some e2 =>
      rw [hq] at h
      cases hv : (enhanced_element_validation e2 element_type p).fst
      · simp [hv] at h
        obtain ⟨q, hq2, hm⟩ := ih e m h
        exact ⟨q, List.mem_cons_of_mem _ hq2, hm⟩
      · simp [hv] at h
        exact ⟨p, List.mem_cons_self _ _, Or.inl h.2.symm⟩
    | none =>
      rw [hq] at h
      cases ht : w.child_window (titleQueryOf p) with
      | some e2 =>
        rw [ht] at h
        cases hv : (enhanced_element_validation e2 element_type p).fst
        · simp [hv] at h
          obtain ⟨q, hq2, hm⟩ := ih e m h
          exact ⟨q, List.mem_cons_of_mem _ hq2, hm⟩
        · simp [hv] at h
          exact ⟨p, List.mem_cons_self _ _, Or.inr h.2.symm⟩
      | none =>
        rw [ht] at h
        obtain ⟨q, hq2, hm⟩ := ih e m h
        exact ⟨q, List.mem_cons_of_mem _ hq2, hm⟩

/-- C7: the resilient locator never invokes dynamic discovery when some
known pattern yields a node that passes readiness validation: whenever the
known-pattern phase succeeds, `find_element_with_dynamic_fallback` returns
that node with a known-pattern method, and the dynamic-discovery flag is
`false` (the tree scan is never called). -/
theorem C7_known_pattern_skips_discovery (w : Window) (element_type : String)
    (patterns : List String) (debug_data : Option DebugData) (e : UINode) (m : String)
    (h : find_known_pattern w element_type patterns = some (e, m)) :
    find_element_with_dynamic_fallback w element_type patterns debug_data =
        ((some e, some m), false) ∧
      ∃ p, p ∈ patterns ∧
        (m = "known_pattern_auto_id: " ++ p ∨ m = "known_pattern_title: " ++ p) := by
  refine ⟨?_, find_known_pattern_method w element_type patterns e m h⟩
  unfold find_element_with_dynamic_fallback
  rw [h]

/-- A ready text input: every probe succeeds. -/
def readyInput : UINode := ⟨true, true, true, true, true, some (10, 10)⟩

/-- Fake backend of the spec's phase-ordering scenario: pattern #1 resolves
nothing, pattern #2 resolves a ready node via `auto_id`. -/
def wC7 : Window := ⟨fun q => if q = autoQueryOf "P2" then some readyInput else none⟩

theorem C7_known_pattern_skips_discovery_witness :
    find_known_pattern wC7 "text_input" ["P1", "P2"] =
        some (readyInput, "known_pattern_auto_id: P2") ∧
      (find_element_with_dynamic_fallback wC7 "text_input" ["P1", "P2"] none =
          ((some readyInput, some "known_pattern_auto_id: P2"), false) ∧
        ∃ p, p ∈ ["P1", "P2"] ∧
          ("known_pattern_auto_id: P2" = "known_pattern_auto_id: " ++ p ∨
            "known_pattern_auto_id: P2" = "known_pattern_title: " ++ p)) := by
  have h : find_known_pattern wC7 "text_input" ["P1", "P2"] =
      some (readyInput, "known_pattern_auto_id: P2") := by rfl
  exact ⟨h, C7_known_pattern_skips_discovery wC7 "text_input" ["P1", "P2"] none
    readyInput "known_pattern_auto_id: P2" h⟩

/-- C8: when every known pattern fails to yield a ready node and dynamic
discovery produces no data at all or zero candidates for the requested
role, the locator returns `(None, None)`.  The locator is a total function,
so this outcome is a value, not an exception. -/
theorem C8_exhaustion_returns_none (w : Window) (element_type : String)
    (patterns : List String) (debug_data : Option DebugData)
    (h1 : find_known_pattern w element_type patterns = none)
    (h2 : debug_data = none ∨
      ∃ d, debug_data = some d ∧ candidates_for d element_type = []) :
    find_element_with_dynamic_fallback w element_type patterns debug_data =
      ((none, none), true) := by
  unfold find_element_with_dynamic_fallback
  rw [h1]
  rcases h2 with rfl | ⟨d, rfl, hd⟩
  · rfl
  · simp [hd, try_element_candidates]

/-- A backend where every lookup raises `ElementNotFoundError`. -/
def wNone : Window := ⟨fun _ => none⟩

/-- Discovery data with zero candidates for every role. -/
def emptyDebugData : DebugData := ⟨[], [], []⟩

theorem C8_exhaustion_returns_none_witness :
    find_known_pattern wNone "send_button" ["B"] = none ∧
      find_element_with_dynamic_fallback wNone "send_button" ["B"] (some emptyDebugData) =
        ((none, none), true) := by
  have h1 : find_known_pattern wNone "send_button" ["B"] = none := by rfl
  exact ⟨h1, C8_exhaustion_returns_none wNone "send_button" ["B"] (some emptyDebugData) h1
    (Or.inr ⟨emptyDebugData, rfl, rfl⟩)⟩

/-! Claim theorems about C6: combined versus single-criterion lookups in the
dynamic-discovery phase. -/

theorem count_autoQueryOf (s : String) : (autoQueryOf s).count = 1 := rfl

theorem count_titleQueryOf (s : String) : (titleQueryOf s).count = 1 := rfl

theorem count_controlTypeQueryOf (s : String) : (controlTypeQueryOf s).count = 1 := rfl

/-- The `control_type` stage appends at most its own single-criterion query
to the trace. -/
theorem try_candidate_ct_trace (w : Window) (element_type : String)
    (cand : CandidateInfo) (tr : List Criteria) :
    (try_candidate_ct w element_type cand tr).snd = tr ∨
      (try_candidate_ct w element_type cand tr).snd =
        tr ++ [controlTypeQueryOf cand.control_type] := by
  unfold try_candidate_ct
  by_cases h : cand.control_type = ""
  · simp [h]
  · simp only [ne_eq, h, not_false_eq_true, if_true]
    cases hcw : w.child_window (controlTypeQueryOf cand.control_type) with
    | some e =>
      cases hv : (enhanced_element_validation e element_type cand.control_type).fst <;>
        simp [hv]
    | none => simp

theorem try_candidate_ct_queries (w : Window) (element_type : String)
    (cand : CandidateInfo) (tr : List Criteria) (q : Criteria)
    (hq : q ∈ (try_candidate_ct w element_type cand tr).snd) : q ∈ tr ∨ q.count = 1 := by
  rcases try_candidate_ct_trace w element_type cand tr with h | h <;> rw [h] at hq
  · exact Or.inl hq
  · rcases List.mem_append.mp hq with h2 | h2
    · exact Or.inl h2
    · simp only [List.mem_singleton] at h2
      subst h2
      exact Or.inr rfl

theorem try_candidate_title_queries (w : Window) (element_type : String)
    (cand : CandidateInfo) (tr : List Criteria) (q : Criteria)
    (hq : q ∈ (try_candidate_title w element_type cand tr).snd) : q ∈ tr ∨ q.count = 1 := by
  unfold try_candidate_title at hq
  by_cases h : cand.title = ""
  · simp only [ne_eq, h, not_true_eq_false, if_false] at hq
    exact try_candidate_ct_queries w element_type cand tr q hq
  · simp only [ne_eq, h, not_false_eq_true, if_true] at hq
    cases hcw : w.child_window (titleQueryOf cand.title) with
    | some e =>
      rw [hcw] at hq
      cases hv : (enhanced_element_validation e element_type cand.title).fst <;>
        simp only [hv, Bool.false_eq_true, if_false, if_true] at hq <;>
        (rcases List.mem_append.mp hq with h2 | h2
         · exact Or.inl h2
         · simp only [List.mem_singleton] at h2
           subst h2
           exact Or.inr rfl)
    | none =>
      rw [hcw] at hq
      rcases try_candidate_ct_queries w element_type cand _ q hq with h2 | h2
      · rcases List.mem_append.mp h2 with h3 | h3
        · exact Or.inl h3
        · simp only [List.mem_singleton] at h3
          subst h3
          exact Or.inr rfl
      · exact Or.inr h2

/-- Every backend query the packaged `try_element_candidates` issues for one
candidate is a single-criterion lookup. -/
theorem try_candidate_queries (w : Window) (element_type : String)
    (cand : CandidateInfo) (q : Criteria)
    (hq : q ∈ (try_candidate w element_type cand).snd) : q.count = 1 := by
  unfold try_candidate at hq
  by_cases h : cand.auto_id = ""
  · simp only [ne_eq, h, not_true_eq_false, if_false] at hq
    rcases try_candidate_title_queries w element_type cand [] q hq with h2 | h2
    · cases h2
    · exact h2
  · simp only [ne_eq, h, not_false_eq_true, if_true] at hq
    cases hcw : w.child_window (autoQueryOf cand.auto_id) with
    | some e =>
      rw [hcw] at hq
      cases hv : (enhanced_element_validation e element_type cand.auto_id).fst <;>
        simp only [hv, Bool.false_eq_true, if_false, if_true] at hq <;>
        (simp only [List.mem_singleton] at hq
         subst hq
         exact rfl)
    | none =>
      rw [hcw] at hq
      rcases try_candidate_title_queries w element_type cand _ q hq with h2 | h2
      · simp only [List.mem_singleton] at h2
        subst h2
        exact rfl
      · exact h2

/-- Every backend query the packaged `try_element_candidates` issues over a
whole candidate list is a single-criterion lookup. -/
theorem try_element_candidates_queries (w : Window) (element_type : String) :
    ∀ (cands : List CandidateInfo) (q : Criteria),
      q ∈ (try_element_candidates w cands element_type).snd → q.count = 1 := by
  intro cands
  induction cands with
  | nil => intro q hq; simp [try_element_candidates] at hq
  | cons c rest ih =>
    intro q hq
    unfold try_element_candidates at hq
    cases htc : try_candidate w element_type c with
    | mk fst tr =>
      rw [htc] at hq
      cases fst with
      | some e =>
        simp only at hq
        exact try_candidate_queries w element_type c q (by rw [htc]; exact hq)
      | none =>
        simp only at hq
        rcases List.mem_append.mp hq with h2 | h2
        · exact try_candidate_queries w element_type c q (by rw [htc]; exact h2)
        · exact ih q h2

/-- When the single-criterion fallback loop of the legacy script fails
altogether, it has queried every criterion, in order. -/
theorem script_try_singles_trace (w : Window) (element_type : String) :
    ∀ qs : List Criteria, (script_try_singles w element_type qs).fst = none →
      (script_try_singles w element_type qs).snd = qs := by
  intro qs
  induction qs with
  | nil => intro _; rfl
  | cons q rest ih =>
    intro h
    unfold script_try_singles at h ⊢
    cases hq : w.child_window q with
    | some e =>
      rw [hq] at h
      cases hv : (enhanced_element_validation_script e element_type (criteria_descr q)).fst
      · simp only [hv, Bool.false_eq_true, if_false] at h ⊢
        rw [ih h]
      · simp [hv] at h
    | none =>
      rw [hq] at h
      simp only at h ⊢
      rw [ih h]

/-- The candidate of the C6 scenario: non-empty `auto_id` and `title`. -/
def candC6 : CandidateInfo := ⟨"A", "T", ""⟩

/-- A ready send control. -/
def readySend : UINode := ⟨true, true, true, true, true, some (5, 5)⟩

/-- Backend of the C6 scenario: the single `auto_id` lookup resolves to a
zero-area (hence not ready) control, while the combined lookup and the
single `title` lookup resolve to a ready control. -/
def wC6 : Window :=
  ⟨fun q =>
    if q = autoQueryOf "A" then some zeroAreaNode
    else if q = combined_criteria candC6 then some readySend
    else if q = titleQueryOf "T" then some readySend
    else none⟩

/-- C6 counterexample: the claim states that for each candidate the locator
first attempts one combined-criteria lookup and, if that fails or the node
is not ready, falls back to single-criterion lookups (identifier, then
title, then role) for the same candidate.  The packaged
`try_element_candidates` (`src/language_crash_test/automation.py`
lines 150-201) does neither: on this backend — where the combined lookup
would resolve a ready node, and so would the single `title` lookup — it
issues exactly one query, the single `auto_id` lookup, and gives the
candidate up when that node fails validation, returning no element.  The
legacy script's version returns the ready node via the combined lookup. -/
theorem C6_combined_lookup_counterexample :
    (try_element_candidates wC6 [candC6] "send_button").fst = none ∧
      (try_element_candidates wC6 [candC6] "send_button").snd = [autoQueryOf "A"] ∧
      wC6.child_window (combined_criteria candC6) = some readySend ∧
      wC6.child_window (titleQueryOf "T") = some readySend ∧
      (enhanced_element_validation readySend "send_button" "T").fst = true ∧
      (script_try_element_candidates wC6 [candC6] "send_button").fst =
        some (readySend, candC6) := by
  decide

/-- C6 amended: only the legacy script's dynamic-discovery phase
(`src/copilot_ui_stress_test.py` lines 196-263) attempts the
combined-criteria lookup first — for a candidate with at least two
non-empty attributes its first query is the combined one, and when the
candidate fails entirely the trace is the combined query followed by every
single-criterion query in the order identifier, title, role.  The packaged
module's `try_element_candidates` issues single-criterion lookups only. -/
theorem C6_amended_combined_only_in_legacy (w : Window) (element_type : String)
    (c : CandidateInfo) (cands : List CandidateInfo)
    (h2 : 1 < (single_criteria c).length) :
    (script_try_candidate w element_type c).snd.head? = some (combined_criteria c) ∧
      ((script_try_candidate w element_type c).fst = none →
        (script_try_candidate w element_type c).snd =
          combined_criteria c :: single_criteria c) ∧
      ∀ q ∈ (try_element_candidates w cands element_type).snd, q.count ≤ 1 := by
  have hne : ¬((single_criteria c).length = 0) := by omega
  refine ⟨?_, ?_, fun q hq =>
    Nat.le_of_eq (try_element_candidates_queries w element_type cands q hq)⟩
  · unfold script_try_candidate
    rw [if_neg hne, if_pos h2]
    cases hcw : w.child_window (combined_criteria c) with
    | some e =>
      cases hv : (enhanced_element_validation_script e element_type
          (criteria_descr (combined_criteria c))).fst <;> simp [hv]
    | none => simp
  · intro hfail
    unfold script_try_candidate at hfail ⊢
    rw [if_neg hne, if_pos h2] at hfail ⊢
    cases hcw : w.child_window (combined_criteria c) with
    | some e =>
      rw [hcw] at hfail
      cases hv : (enhanced_element_validation_script e element_type
          (criteria_descr (combined_criteria c))).fst
      · simp only [hv, Bool.false_eq_true, if_false] at hfail ⊢
        rw [script_try_singles_trace w element_type (single_criteria c) hfail]
      · simp [hv] at hfail
    | none =>
      rw [hcw] at hfail
      simp only at hfail ⊢
      rw [script_try_singles_trace w element_type (single_criteria c) hfail]

theorem C6_amended_combined_only_in_legacy_witness :
    1 < (single_criteria candC6).length ∧
      ((script_try_candidate wC6 "send_button" candC6).snd.head? =
          some (combined_criteria candC6) ∧
        ((script_try_candidate wC6 "send_button" candC6).fst = none →
          (script_try_candidate wC6 "send_button" candC6).snd =
            combined_criteria candC6 :: single_criteria candC6) ∧
        ∀ q ∈ (try_element_candidates wC6 [candC6] "send_button").snd, q.count ≤ 1) :=
  ⟨by decide,
    C6_amended_combined_only_in_legacy wC6 "send_button" candC6 [candC6] (by decide)⟩

/-! Claim theorems C9-C10 about the tree scanners. -/

/-- Membership in any of the three lists of `inspect_ui_elements` implies
the visibility and enabled flags. -/
theorem mem_inspect_filter {p : ElementInfo → Bool} {descendants : List ElementInfo}
    {e : ElementInfo}
    (h : e ∈ descendants.filter (fun x => x.is_visible && x.is_enabled && p x)) :
    e.is_visible = true ∧ e.is_enabled = true := by
  rcases List.mem_filter.mp h with ⟨_, hp⟩
  simp only [Bool.and_eq_true] at hp
  exact ⟨hp.1.1, hp.1.2⟩

theorem mem_text_input_raw {controls : List ElementInfo} {c : ScoredCandidate}
    (h : c ∈ find_likely_text_input_controls_raw controls) :
    c.control.is_visible = true ∧ c.control.is_enabled = true := by
  rcases List.mem_filterMap.mp h with ⟨a, _, hf⟩
  by_cases he : (a.is_enabled && a.is_visible) = true
  · rw [if_pos he] at hf
    by_cases hs : 0 < (score_text_input a).fst
    · rw [if_pos hs] at hf
      injection hf with hf
      subst hf
      simp only [Bool.and_eq_true] at he
      exact ⟨he.2, he.1⟩
    · rw [if_neg hs] at hf; cases hf
  · rw [if_neg he] at hf; cases hf

theorem mem_send_button_raw {controls : List ElementInfo} {c : ScoredCandidate}
    (h : c ∈ find_likely_send_button_controls_raw controls) :
    c.control.is_visible = true ∧ c.control.is_enabled = true := by
  rcases List.mem_filterMap.mp h with ⟨a, _, hf⟩
  by_cases he : (a.is_enabled && a.is_visible) = true
  · rw [if_pos he] at hf
    by_cases hs : 0 < (score_send_button a).fst
    · rw [if_pos hs] at hf
      injection hf with hf
      subst hf
      simp only [Bool.and_eq_true] at he
      exact ⟨he.2, he.1⟩
    · rw [if_neg hs] at hf; cases hf
  · rw [if_neg he] at hf; cases hf

theorem mem_new_conversation_raw {controls : List ElementInfo} {c : ScoredCandidate}
    (h : c ∈ find_likely_new_conversation_controls_raw controls) :
    c.control.is_visible = true ∧ c.control.is_enabled = true := by
  rcases List.mem_filterMap.mp h with ⟨a, _, hf⟩
  by_cases he : (a.is_enabled && a.is_visible) = true
  · rw [if_pos he] at hf
    cases hsc : score_new_conversation a with
    | some sc =>
      rw [hsc] at hf
      simp only at hf
      by_cases hs : 0 < sc.fst
      · rw [if_pos hs] at hf
        injection hf with hf
        subst hf
        simp only [Bool.and_eq_true] at he
        exact ⟨he.2, he.1⟩
      · rw [if_neg hs] at hf; cases hf
    | none => rw [hsc] at hf; cases hf
  · rw [if_neg he] at hf; cases hf

/-- C9: a node whose `is_visible` attribute is false, or whose `is_enabled`
attribute is false, never appears in any candidate list produced by either
tree scanner — the three lists of `inspect_ui_elements`
(`src/language_crash_test/debug.py`) and the three ranked lists of the
`find_likely_*_controls` classifiers (`src/copilot_ui_debug.py`) all contain
only visible and enabled nodes, regardless of any other attribute. -/
theorem C9_invisible_never_candidate (descendants : List ElementInfo)
    (e : ElementInfo) (c : ScoredCandidate) :
    ((e ∈ (inspect_ui_elements descendants).text_input_candidates →
        e.is_visible = true ∧ e.is_enabled = true) ∧
      (e ∈ (inspect_ui_elements descendants).send_button_candidates →
        e.is_visible = true ∧ e.is_enabled = true) ∧
      (e ∈ (inspect_ui_elements descendants).new_conversation_candidates →
        e.is_visible = true ∧ e.is_enabled = true)) ∧
    ((c ∈ find_likely_text_input_controls descendants →
        c.control.is_visible = true ∧ c.control.is_enabled = true) ∧
      (c ∈ find_likely_send_button_controls descendants →
        c.control.is_visible = true ∧ c.control.is_enabled = true) ∧
      (c ∈ find_likely_new_conversation_controls descendants →
        c.control.is_visible = true ∧ c.control.is_enabled = true)) := by
  refine ⟨⟨fun h => mem_inspect_filter h, fun h => mem_inspect_filter h,
    fun h => mem_inspect_filter h⟩, ?_, ?_, ?_⟩
  · intro h
    rw [find_likely_text_input_controls, sort_candidates, List.mem_mergeSort] at h
    exact mem_text_input_raw h
  · intro h
    rw [find_likely_send_button_controls, sort_candidates, List.mem_mergeSort] at h
    exact mem_send_button_raw h
  · intro h
    rw [find_likely_new_conversation_controls, sort_candidates, List.mem_mergeSort] at h
    exact mem_new_conversation_raw h

/-- A visible, enabled text-input element matching the known-good pattern. -/
def eGood : ElementInfo := ⟨"InputTextBox", "", "Edit", "", true, true⟩

theorem C9_invisible_never_candidate_witness :
    eGood ∈ (inspect_ui_elements [eGood]).text_input_candidates ∧
      (eGood.is_visible = true ∧ eGood.is_enabled = true) :=
  ⟨by decide,
    (C9_invisible_never_candidate [eGood] eGood ⟨eGood, 0, []⟩).1.1 (by decide)⟩

theorem le_score_trans (a b c : ScoredCandidate)
    (h1 : decide (b.score ≤ a.score) = true) (h2 : decide (c.score ≤ b.score) = true) :
    decide (c.score ≤ a.score) = true := by
  simp only [decide_eq_true_eq] at *
  omega

theorem le_score_total (a b : ScoredCandidate) :
    (decide (b.score ≤ a.score) || decide (a.score ≤ b.score)) = true := by
  rcases Nat.le_total b.score a.score with h | h <;> simp [h]

/-- The stable descending sort returns a list that is non-increasing in the
score. -/
theorem sort_candidates_sorted (l : List ScoredCandidate) :
    (sort_candidates l).Pairwise (fun a b => b.score ≤ a.score) := by
  have h := List.sorted_mergeSort le_score_trans le_score_total l
  exact h.imp (fun hab => by simpa using hab)

/-- Stability of the sort: the candidates of any fixed score appear in the
sorted list exactly in their original order. -/
theorem sort_candidates_stable (l : List ScoredCandidate) (k : Nat) :
    (sort_candidates l).filter (fun c => c.score == k) =
      l.filter (fun c => c.score == k) := by
  have hmemk : ∀ a ∈ l.filter (fun c => c.score == k), a.score = k := by
    intro a ha
    have := (List.mem_filter.mp ha).2
    simpa using this
  have hpair : (l.filter (fun c => c.score == k)).Pairwise
      (fun a b : ScoredCandidate => decide (b.score ≤ a.score) = true) := by
    apply List.pairwise_of_forall_mem_list
    intro a ha b hb
    rw [hmemk a ha, hmemk b hb]
    simp
  have h1 : List.Sublist (l.filter (fun c => c.score == k)) (sort_candidates l) :=
    List.sublist_mergeSort le_score_trans le_score_total hpair (List.filter_sublist l)
  have h2 := h1.filter (fun c => c.score == k)
  have hself : (l.filter (fun c => c.score == k)).filter (fun c => c.score == k) =
      l.filter (fun c => c.score == k) :=
    List.filter_eq_self.mpr (fun a ha => (List.mem_filter.mp ha).2)
  rw [hself] at h2
  have hlen : ((sort_candidates l).filter (fun c => c.score == k)).length =
      (l.filter (fun c => c.score == k)).length :=
    ((List.mergeSort_perm l _).filter _).length_eq
  exact (h2.eq_of_length hlen.symm).symm

/-- C10: in every ranked candidate list produced by the classifier scan
(`find_likely_*_controls` in `src/copilot_ui_debug.py`), the candidates are
sorted non-increasing by score, and the candidates of any fixed score keep
their original scan order relative to the unsorted accumulation list
(stable sort). -/
theorem C10_ranked_lists_sorted_and_stable (controls : List ElementInfo) (k : Nat) :
    ((find_likely_text_input_controls controls).Pairwise (fun a b => b.score ≤ a.score) ∧
      (find_likely_text_input_controls controls).filter (fun c => c.score == k) =
        (find_likely_text_input_controls_raw controls).filter (fun c => c.score == k)) ∧
    ((find_likely_send_button_controls controls).Pairwise (fun a b => b.score ≤ a.score) ∧
      (find_likely_send_button_controls controls).filter (fun c => c.score == k) =
        (find_likely_send_button_controls_raw controls).filter (fun c => c.score == k)) ∧
    ((find_likely_new_conversation_controls controls).Pairwise
        (fun a b => b.score ≤ a.score) ∧
      (find_likely_new_conversation_controls controls).filter (fun c => c.score == k) =
        (find_likely_new_conversation_controls_raw controls).filter
          (fun c => c.score == k)) :=
  ⟨⟨sort_candidates_sorted _, sort_candidates_stable _ k⟩,
    ⟨sort_candidates_sorted _, sort_candidates_stable _ k⟩,
    ⟨sort_candidates_sorted _, sort_candidates_stable _ k⟩⟩

end LanguageCrashTest
